import Mathlib

/-!
# Verification of the Instagram → Shopify sync pipeline

Shallow embedding of the sync pipeline of the NN-Instagram repository:

* `app/utils/instagram-sync.server.ts` — media transfer
  (`uploadMediaFile`, `uploadVideoWithStaging`, `createShopifyFile`),
  per-post upsert (`upsertPostMetaobject`), list upsert
  (`upsertListMetaobject`), lookup (`getExistingPost`) and account
  reconciliation (`deleteOldAccountData`);
* `app/routes/api.instagram.staged-upload.tsx` — the `action` driver
  (embedded below as `syncAction`).

External collaborators (the Instagram Graph API, the Shopify admin
GraphQL client and the Prisma database) are modelled as explicit inputs:
fetched responses are plain data, the store's mutation responses are
oracle functions, and every mutating call the pipeline makes is recorded
in an ordered trace of `Event`s.  JavaScript-specific semantics
(truthiness of strings, `String(undefined)`, optional chaining) are
modelled explicitly by small helper functions.
-/

/-- JavaScript `a || b` on strings: the empty string is falsy. -/
def jsOr (a b : String) : String := if a = "" then b else a

/-- JavaScript `String(x)` for a possibly-`undefined` number `x`:
`String(undefined)` is the (truthy) string `"undefined"`. -/
def jsStringOfOptNat : Option Nat → String
  | none => "undefined"
  | some n => toString n

/-- A child media item of a carousel post (`post.children.data[i]`). -/
structure InstagramChild where
  id : String
  media_url : String
  media_type : String
deriving DecidableEq

/-- A remote Instagram post as consumed by the pipeline.  Fields the
remote API may omit at runtime (`caption`, `like_count`,
`comments_count`, `children`) are `Option`s: `none` models a missing
(`undefined`) field. -/
structure InstagramPost where
  id : String
  media_type : String
  media_url : String
  caption : Option String
  like_count : Option Nat
  comments_count : Option Nat
  children : Option (List InstagramChild)
deriving DecidableEq

/-- A field-level user error reported by the store
(`userErrors { field message }`). -/
structure UserError where
  errorField : Option String
  message : String
deriving DecidableEq

/-- One created file in a `fileCreate` response. -/
structure FileInfo where
  id : String
deriving DecidableEq

/-- The `fileCreate` payload: created files plus user errors. -/
structure FileCreateBody where
  files : List FileInfo
  userErrors : List UserError
deriving DecidableEq

/-- `response.data` of a `fileCreate` mutation (`data?.fileCreate?`). -/
structure FileCreateData where
  fileCreate : Option FileCreateBody
deriving DecidableEq

/-- The JSON response of a `fileCreate` mutation. -/
structure FileCreateResponse where
  data : Option FileCreateData
deriving DecidableEq

/-- One staged-upload target returned by `stagedUploadsCreate`. -/
structure StagedTarget where
  url : String
  resourceUrl : String
deriving DecidableEq

/-- The `stagedUploadsCreate` payload. -/
structure StagedUploadsCreateBody where
  stagedTargets : List StagedTarget
deriving DecidableEq

/-- `response.data` of a `stagedUploadsCreate` mutation. -/
structure StagedUploadsCreateData where
  stagedUploadsCreate : Option StagedUploadsCreateBody
deriving DecidableEq

/-- The JSON response of a `stagedUploadsCreate` mutation. -/
structure StagedUploadsCreateResponse where
  data : Option StagedUploadsCreateData
deriving DecidableEq

/-- Result of `fetch(videoUrl)`: the HTTP status flag, its status text
and the byte length of the downloaded body. -/
structure DownloadResult where
  ok : Bool
  statusText : String
  byteLength : Nat
deriving DecidableEq

/-- Result of the multipart `fetch(stagedTarget.url, {method POST})`. -/
structure UploadHttpResult where
  ok : Bool
  statusText : String
deriving DecidableEq

/-- Behaviour of the network and of the store during one media transfer.
Each operation returns `Except String α`: `.error msg` models a thrown
JavaScript exception carrying `msg`. -/
structure MediaOracle where
  fetchVideo : String → Except String DownloadResult
  stagedUploadsCreate : String → Nat → Except String StagedUploadsCreateResponse
  stagedPost : String → Except String UploadHttpResult
  fileCreate : String → String → String → Except String FileCreateResponse

/-- `createShopifyFile(admin, mediaUrl, alt, contentType)`: issues the
`fileCreate` mutation and returns its JSON (may throw — `.error`). -/
def createShopifyFile (o : MediaOracle) (mediaUrl alt contentType : String) :
    Except String FileCreateResponse :=
  o.fileCreate mediaUrl alt contentType

/-- The error result object built by the `catch` blocks of
`uploadVideoWithStaging` and `uploadMediaFile`:
`{data: {fileCreate: {files: [], userErrors: [{message}]}}}`. -/
def mkCaughtErrorResponse (message : String) : FileCreateResponse :=
  { data := some { fileCreate := some { files := [], userErrors := [{ errorField := none, message := message }] } } }

/-- The `try` block of `uploadVideoWithStaging`: download the video,
create a staged upload sized to the byte length, POST the bytes to the
staged target, then `createShopifyFile` on the staged resource URL.
`.error msg` models reaching the `catch` with message `msg`. -/
def uploadVideoBody (o : MediaOracle) (videoUrl alt : String) :
    Except String FileCreateResponse := do
  let videoResponse ← o.fetchVideo videoUrl
  if !videoResponse.ok then
    Except.error ("Failed to download video: " ++ videoResponse.statusText)
  else
    let fileSize := videoResponse.byteLength
    let stagedData ← o.stagedUploadsCreate (alt ++ ".mp4") fileSize
    match (stagedData.data.bind (fun d => d.stagedUploadsCreate)).bind
        (fun s => s.stagedTargets.head?) with
    | none => Except.error "Failed to create staged upload"
    | some stagedTarget => do
      let uploadResponse ← o.stagedPost stagedTarget.url
      if !uploadResponse.ok then
        Except.error ("Failed to upload to staged target: " ++ uploadResponse.statusText)
      else
        createShopifyFile o stagedTarget.resourceUrl alt "VIDEO"

/-- `uploadVideoWithStaging`: the `try` body with its `catch` converting
any failure into an error result object. -/
def uploadVideoWithStaging (o : MediaOracle) (videoUrl alt : String) :
    FileCreateResponse :=
  match uploadVideoBody o videoUrl alt with
  | Except.ok fileData => fileData
  | Except.error msg => mkCaughtErrorResponse msg

/-- The `try` block of `uploadMediaFile`: route videos through the
staged-upload path, anything else through direct `createShopifyFile`. -/
def uploadAttempt (o : MediaOracle) (mediaUrl mediaType alt : String) :
    Except String FileCreateResponse :=
  if mediaType == "VIDEO" then
    Except.ok (uploadVideoWithStaging o mediaUrl alt)
  else
    createShopifyFile o mediaUrl alt "IMAGE"

/-- `uploadMediaFile(admin, mediaUrl, mediaType, alt)`: the `try` body
with its `catch` converting any thrown failure into an error result
object.  Total: it never propagates an exception. -/
def uploadMediaFile (o : MediaOracle) (mediaUrl mediaType alt : String) :
    FileCreateResponse :=
  match uploadAttempt o mediaUrl mediaType alt with
  | Except.ok fileData => fileData
  | Except.error msg => mkCaughtErrorResponse msg

/-- `(result.data?.fileCreate?.files || []).map(f => f.id)`. -/
def extractFileIds (r : FileCreateResponse) : List String :=
  (((r.data.bind (fun d => d.fileCreate)).map (fun b => b.files)).getD []).map
    (fun f => f.id)

/-- `result.data?.fileCreate?.userErrors || []`. -/
def fileCreateUserErrors (r : FileCreateResponse) : List UserError :=
  ((r.data.bind (fun d => d.fileCreate)).map (fun b => b.userErrors)).getD []

/-- `JSON.stringify(s)` for one string containing no character that
JSON would escape (the pipeline stores CDN identifiers, which never
need escapes). -/
def encodeJsonString (s : String) : String := "\"" ++ s ++ "\""

/-- The comma-separated items of `JSON.stringify` applied to an array
of such strings. -/
def encodeItems : List String → String
  | [] => ""
  | [s] => encodeJsonString s
  | s :: rest => encodeJsonString s ++ ("," ++ encodeItems rest)

/-- `JSON.stringify(fileIds)` for a string array (escape-free items). -/
def encodeStringList (l : List String) : String :=
  "[" ++ encodeItems l ++ "]"

/-- Fuel-indexed item loop of `decodeStringList`: parse the remaining
characters of a serialized string array after the opening bracket. -/
def parseStringItems : Nat → List Char → Option (List String)
  | _, [] => none
  | 0, _ => none
  | Nat.succ fuel, c :: rest =>
    if c = ']' ∧ rest = [] then some []
    else if c = '"' then
      let item := rest.takeWhile (fun x => x != '"')
      match rest.drop item.length with
      | q :: d :: rest2 =>
        if q = '"' ∧ d = ']' ∧ rest2 = [] then some [⟨item⟩]
        else if q = '"' ∧ d = ',' then
          (parseStringItems fuel rest2).map (fun items => (⟨item⟩ : String) :: items)
        else none
      | _ => none
    else none

/-- `JSON.parse` restricted to serialized string arrays (the only shape
the pipeline ever stores in the `images` field).  Returns `[]` on any
other input (in the source a malformed field would throw instead; the
field is only ever written by `encodeStringList`). -/
def decodeStringList (value : String) : List String :=
  match value.data with
  | c :: rest => if c = '[' then (parseStringItems rest.length rest).getD [] else []
  | [] => []

/-- Stand-in for `JSON.stringify(post)`: the opaque remote-payload blob
attached to a post record.  No claim inspects its contents. -/
def serializePost (p : InstagramPost) : String :=
  String.intercalate "|" [p.id, p.media_type, p.media_url, p.caption.getD "",
    jsStringOfOptNat p.like_count, jsStringOfOptNat p.comments_count]

/-- One `{key, value}` metaobject field. -/
structure FieldKV where
  key : String
  value : String
deriving DecidableEq

/-- Value of the first field with key `k` (`fields.find(...)`). -/
def fieldValue (fields : List FieldKV) (k : String) : Option String :=
  (fields.find? (fun f => f.key == k)).map (fun f => f.value)

/-- The deterministic per-post handle `{username}-post-{postId}`
(`upsertPostMetaobject` / `getExistingPost`). -/
def postHandle (username postId : String) : String :=
  username ++ "-post-" ++ postId

/-- The field list sent by `upsertPostMetaobject`: serialized post,
serialized file-id list, `post.caption || "No caption"`,
`String(post.like_count) || "0"`, `String(post.comments_count) || "0"`. -/
def upsertPostFields (post : InstagramPost) (fileIds : List String) : List FieldKV :=
  [ { key := "data", value := serializePost post },
    { key := "images", value := encodeStringList fileIds },
    { key := "caption", value := jsOr (post.caption.getD "") "No caption" },
    { key := "likes", value := jsOr (jsStringOfOptNat post.like_count) "0" },
    { key := "comments", value := jsOr (jsStringOfOptNat post.comments_count) "0" } ]

/-- The Instagram API error envelope (`igData.error`). -/
structure IgError where
  message : String
deriving DecidableEq

/-- The media-collection response of the Instagram Graph API
(`igData`): error envelope, or a possibly-missing array of posts. -/
structure IgMediaResponse where
  error : Option IgError
  data : Option (List InstagramPost)
deriving DecidableEq

/-- The profile response of the Instagram Graph API (`userData`). -/
structure IgUserResponse where
  error : Option IgError
  username : String
  name : String
deriving DecidableEq

/-- Stand-in for `JSON.stringify(igData)`: the opaque remote-profile
blob attached to the list record.  No claim inspects its contents. -/
def serializeIgData (igData : IgMediaResponse) : String :=
  encodeStringList ((igData.data.getD []).map serializePost)

/-- The field list sent by `upsertListMetaobject`: serialized response,
serialized post-reference list, `username || "instagram_user"`,
`displayName || "Instagram User"`. -/
def upsertListFields (igData : IgMediaResponse) (postObjectIds : List String)
    (username displayName : String) : List FieldKV :=
  [ { key := "data", value := serializeIgData igData },
    { key := "posts", value := encodeStringList postObjectIds },
    { key := "username", value := jsOr username "instagram_user" },
    { key := "name", value := jsOr displayName "Instagram User" } ]

/-- The written metaobject inside an upsert response (`metaobject { id ... }`). -/
structure MetaobjectInfo where
  id : String
deriving DecidableEq

/-- The `metaobjectUpsert` payload. -/
structure MetaobjectUpsertBody where
  metaobject : Option MetaobjectInfo
  userErrors : List UserError
deriving DecidableEq

/-- `response.data` of a `metaobjectUpsert` mutation. -/
structure MetaobjectUpsertData where
  metaobjectUpsert : Option MetaobjectUpsertBody
deriving DecidableEq

/-- The JSON response of a `metaobjectUpsert` mutation. -/
structure MetaobjectUpsertResponse where
  data : Option MetaobjectUpsertData
deriving DecidableEq

/-- `result.data?.metaobjectUpsert?.userErrors` with `undefined`
collapsing to the (falsy) empty list. -/
def upsertUserErrors (r : MetaobjectUpsertResponse) : List UserError :=
  ((r.data.bind (fun d => d.metaobjectUpsert)).map (fun b => b.userErrors)).getD []

/-- The identifier the `action` loop accumulates from one upsert
response: `none` if the response reports user errors (they are only
logged), otherwise `result.data?.metaobjectUpsert?.metaobject?.id`
when that id is present and truthy. -/
def collectUpsertId (r : MetaobjectUpsertResponse) : Option String :=
  if (upsertUserErrors r).length > 0 then none
  else
    match ((r.data.bind (fun d => d.metaobjectUpsert)).bind
        (fun b => b.metaobject)).map (fun m => m.id) with
    | some metaobjectId => if metaobjectId == "" then none else some metaobjectId
    | none => none

/-- A stored metaobject (post record or list record) as the store
returns it: internal id, handle and raw field list. -/
structure StoredMetaobject where
  id : String
  handle : String
  fields : List FieldKV
deriving DecidableEq

/-- A stored media file: internal id and the alt text the pipeline
tags it with. -/
structure StoredFile where
  id : String
  alt : String
deriving DecidableEq

/-- The store's state at the start of a run: the `nn_instagram_post`
metaobjects, the `nn_instagram_list` metaobjects, and the media files.
Lookups during the run read this snapshot (remote post ids within one
run are distinct, so the live store would answer identically). -/
structure Store where
  postMetaobjects : List StoredMetaobject
  listMetaobjects : List StoredMetaobject
  files : List StoredFile
deriving DecidableEq

/-- The result of `getExistingPost`: the record's internal id, its
decoded media-reference list, and its handle. -/
structure ExistingPost where
  metaobjectId : String
  fileIds : List String
  handle : String
deriving DecidableEq

/-- `getExistingPost(admin, postId, username)`: query the post record
by its deterministic handle; if present, JSON-decode its `images`
field ( `[]` when the field is missing). -/
def getExistingPost (store : Store) (postId username : String) :
    Option ExistingPost :=
  let handle := username ++ "-post-" ++ postId
  match store.postMetaobjects.find? (fun m => m.handle == handle) with
  | none => none
  | some metaobject =>
    let imagesField := metaobject.fields.find? (fun f => f.key == "images")
    let fileIds := match imagesField with
      | some f => decodeStringList f.value
      | none => []
    some { metaobjectId := metaobject.id, fileIds := fileIds, handle := metaobject.handle }

/-- One observable mutating call of a sync run, in the order the
`action` awaits them. -/
inductive Event where
  | fetchMedia : Event
  | fetchProfile : Event
  | deletePostRecord (recordId : String) : Event
  | deleteListRecord (recordId : String) : Event
  | fileDelete (fileIds : List String) : Event
  | setUsername (accountId username : String) : Event
  | uploadMedia (mediaUrl mediaType alt : String) : Event
  | upsertPost (post : InstagramPost) (fileIds : List String) (username : String) : Event
  | upsertList (igData : IgMediaResponse) (postObjectIds : List String)
      (username displayName : String) : Event
deriving DecidableEq

/-- `deleteOldAccountData(admin, oldUsername)`: enumerate the first 250
post metaobjects and delete those whose handle starts with
`{old}-post-`; delete the `{old}-feed-list` record if present; query
files by the `{old}-post_` alt-text tag (first 250) and bulk-delete the
ones whose alt text starts with that tag. -/
def deleteOldAccountData (store : Store) (oldUsername : String) : List Event :=
  let oldPostMetaobjects := store.postMetaobjects.take 250
  let oldHandleTag := oldUsername ++ "-post-"
  let postsToDelete := oldPostMetaobjects.filter
    (fun m => oldHandleTag.isPrefixOf m.handle)
  let postDeleteEvents := postsToDelete.map (fun m => Event.deletePostRecord m.id)
  let oldListHandle := oldUsername ++ "-feed-list"
  let listDeleteEvents :=
    match store.listMetaobjects.find? (fun m => m.handle == oldListHandle) with
    | some oldList => [Event.deleteListRecord oldList.id]
    | none => []
  let altTag := oldUsername ++ "-post_"
  let enumeratedFiles := (store.files.filter (fun f => altTag.isPrefixOf f.alt)).take 250
  let oldFiles := enumeratedFiles.filter (fun f => altTag.isPrefixOf f.alt)
  let fileDeleteEvents :=
    if oldFiles.length > 0 then [Event.fileDelete (oldFiles.map (fun f => f.id))]
    else []
  postDeleteEvents ++ listDeleteEvents ++ fileDeleteEvents

/-- The stored social account consumed by the run
(`getInstagramAccountWithToken`): database id, stored remote username
(nullable) and credential expiry timestamp in milliseconds (nullable). -/
structure Account where
  id : String
  username : Option String
  expiresAt : Option Int
deriving DecidableEq

/-- `account.expiresAt && new Date(account.expiresAt) < new Date()`:
a null expiry is falsy and skips the check. -/
def tokenExpired (expiresAt : Option Int) (now : Int) : Bool :=
  match expiresAt with
  | some t => t < now
  | none => false

/-- `!posts || posts.length === 0`: a missing array or an empty array. -/
def jsEmptyPosts : Option (List InstagramPost) → Bool
  | none => true
  | some posts => posts.isEmpty

/-- `account.username && account.username !== currentUsername`: a
non-null, non-empty (truthy) stored username that differs from the
freshly fetched one. -/
def identitySwitch (storedUsername : Option String) (currentUsername : String) : Bool :=
  match storedUsername with
  | some stored => stored != "" && stored != currentUsername
  | none => false

/-- `!account.username || account.username !== currentUsername`: the
stored username is falsy (null or empty) or differs from the fresh one. -/
def usernameNeedsUpdate (storedUsername : Option String) (currentUsername : String) : Bool :=
  match storedUsername with
  | some stored => stored == "" || stored != currentUsername
  | none => true

/-- The store's responses to the run's upsert mutations, keyed by the
handle and field list actually sent. -/
structure RunOracle where
  media : MediaOracle
  upsertPost : String → List FieldKV → MetaobjectUpsertResponse
  upsertList : String → List FieldKV → MetaobjectUpsertResponse

/-- `upsertPostMetaobject(admin, post, fileIds, username)`: one
upsert-by-handle mutation at `{username}-post-{post.id}` with the
field list of `upsertPostFields`. -/
def upsertPostMetaobject (o : RunOracle) (post : InstagramPost)
    (fileIds : List String) (username : String) : MetaobjectUpsertResponse :=
  o.upsertPost (postHandle username post.id) (upsertPostFields post fileIds)

/-- `upsertListMetaobject(admin, igData, postObjectIds, username,
displayName)`: one upsert-by-handle mutation at `{username}-feed-list`
with the field list of `upsertListFields`. -/
def upsertListMetaobject (o : RunOracle) (igData : IgMediaResponse)
    (postObjectIds : List String) (username displayName : String) :
    MetaobjectUpsertResponse :=
  o.upsertList (username ++ "-feed-list")
    (upsertListFields igData postObjectIds username displayName)

/-- The carousel child loop of the `action`: upload each child tagged
`{username}-post_{postId}_{childId}` and concatenate the returned file
ids in child order. -/
def uploadCarouselChildren (o : RunOracle) (username postId : String) :
    List InstagramChild → List String × List Event
  | [] => ([], [])
  | child :: rest =>
    let childAlt := username ++ "-post_" ++ postId ++ "_" ++ child.id
    let result := uploadMediaFile o.media child.media_url child.media_type childAlt
    let childFileIds := extractFileIds result
    let restResult := uploadCarouselChildren o username postId rest
    (childFileIds ++ restResult.1,
     Event.uploadMedia child.media_url child.media_type childAlt :: restResult.2)

/-- One iteration of the per-post loop of the `action`: reuse the
stored file ids when the post record already exists, otherwise upload
the media (per child for a carousel, once otherwise) and upsert only
when at least one file id came back.  Returns the accumulated
metaobject id (if any) and this iteration's mutating calls in order. -/
def processPost (o : RunOracle) (store : Store) (username : String)
    (post : InstagramPost) : Option String × List Event :=
  match getExistingPost store post.id username with
  | some existingPost =>
    let fileIds := existingPost.fileIds
    let metaobjectResult := upsertPostMetaobject o post fileIds username
    (collectUpsertId metaobjectResult, [Event.upsertPost post fileIds username])
  | none =>
    let uploaded :=
      if post.media_type == "CAROUSEL_ALBUM" && post.children.isSome then
        uploadCarouselChildren o username post.id (post.children.getD [])
      else
        let alt := username ++ "-post_" ++ post.id
        let result := uploadMediaFile o.media post.media_url post.media_type alt
        (extractFileIds result, [Event.uploadMedia post.media_url post.media_type alt])
    let fileIds := uploaded.1
    let uploadEvents := uploaded.2
    if fileIds.length > 0 then
      let metaobjectResult := upsertPostMetaobject o post fileIds username
      (collectUpsertId metaobjectResult,
       uploadEvents ++ [Event.upsertPost post fileIds username])
    else
      (none, uploadEvents)

/-- The per-post loop of the `action` over the fetched posts, in order:
accumulated metaobject ids and the concatenated trace. -/
def processPosts (o : RunOracle) (store : Store) (username : String) :
    List InstagramPost → List String × List Event
  | [] => ([], [])
  | post :: rest =>
    let headResult := processPost o store username post
    let restResult := processPosts o store username rest
    (headResult.1.toList ++ restResult.1, headResult.2 ++ restResult.2)

/-- The value the `action` returns to its caller. -/
inductive RunResult where
  | errorNoAccount (message : String) : RunResult
  | errorTokenExpired (message : String) (expired : Bool) : RunResult
  | errorInstagramApi (message : String) : RunResult
  | successNoPosts (message : String) (postsCount : Nat) : RunResult
  | success (username displayName : String) : RunResult
deriving DecidableEq

/-- `Instagram API error: ${error.message || "Invalid or expired
token"}. Please reconnect your Instagram account.` -/
def igApiErrorMessage (e : IgError) : String :=
  "Instagram API error: " ++ jsOr e.message "Invalid or expired token" ++
    ". Please reconnect your Instagram account."

/-- One full run: the returned value, the ordered trace of calls, and
(as an observable of the run) the accumulated metaobject-id list. -/
structure RunOutcome where
  result : RunResult
  events : List Event
  postObjectIds : List String
deriving DecidableEq

/-- The `action` of `api.instagram.staged-upload.tsx`: check the
account and its expiry, fetch media and profile (aborting on an error
envelope), short-circuit on an empty feed, tear down the old identity
on a username switch, persist a new or changed username, run the
per-post loop, and finally upsert the feed-list record when at least
one post succeeded. -/
def syncAction (account : Option Account) (now : Int) (igData : IgMediaResponse)
    (userData : IgUserResponse) (store : Store) (o : RunOracle) : RunOutcome :=
  match account with
  | none =>
    { result := RunResult.errorNoAccount "No Instagram account connected",
      events := [], postObjectIds := [] }
  | some account =>
    if tokenExpired account.expiresAt now then
      { result := RunResult.errorTokenExpired
          "Instagram token has expired. Please reconnect your Instagram account." true,
        events := [], postObjectIds := [] }
    else
      match igData.error with
      | some e =>
        { result := RunResult.errorInstagramApi (igApiErrorMessage e),
          events := [Event.fetchMedia], postObjectIds := [] }
      | none =>
        match userData.error with
        | some e =>
          { result := RunResult.errorInstagramApi (igApiErrorMessage e),
            events := [Event.fetchMedia, Event.fetchProfile], postObjectIds := [] }
        | none =>
          let posts := igData.data
          let currentUsername := userData.username
          let displayName := userData.name
          if jsEmptyPosts posts then
            { result := RunResult.successNoPosts "No Instagram posts found to sync" 0,
              events := [Event.fetchMedia, Event.fetchProfile], postObjectIds := [] }
          else
            let teardownEvents :=
              if identitySwitch account.username currentUsername then
                deleteOldAccountData store (account.username.getD "")
              else []
            let usernameEvents :=
              if usernameNeedsUpdate account.username currentUsername then
                [Event.setUsername account.id currentUsername]
              else []
            let loopResult := processPosts o store currentUsername (posts.getD [])
            let postObjectIds := loopResult.1
            let loopEvents := loopResult.2
            let listEvents :=
              if postObjectIds.length > 0 then
                [Event.upsertList igData postObjectIds currentUsername displayName]
              else []
            { result := RunResult.success currentUsername displayName,
              events := [Event.fetchMedia, Event.fetchProfile] ++ teardownEvents ++
                usernameEvents ++ loopEvents ++ listEvents,
              postObjectIds := postObjectIds }

/-- Upsert-by-handle semantics of the store (spec §6): replace the
field list of the record with the given handle, or create the record
if no handle matches. -/
def upsertByHandle (records : List StoredMetaobject) (handle : String)
    (fields : List FieldKV) : List StoredMetaobject :=
  if records.any (fun m => m.handle == handle) then
    records.map (fun m => if m.handle == handle then { m with fields := fields } else m)
  else
    records ++ [{ id := handle, handle := handle, fields := fields }]

/-- Effect of one traced call on the store (spec §6 store API:
deletion by id, bulk file deletion, upsert-by-handle).  Media uploads
ingest asynchronously into the file store (spec §4.2) and the run never
reads files back, so they are not applied here; fetches and the
database username update do not touch the store. -/
def applyEvent (store : Store) : Event → Store
  | Event.deletePostRecord recordId =>
    { store with postMetaobjects := store.postMetaobjects.filter (fun m => m.id != recordId) }
  | Event.deleteListRecord recordId =>
    { store with listMetaobjects := store.listMetaobjects.filter (fun m => m.id != recordId) }
  | Event.fileDelete fileIds =>
    { store with files := store.files.filter (fun f => !(fileIds.contains f.id)) }
  | Event.upsertPost post fileIds username =>
    { store with postMetaobjects := (upsertByHandle store.postMetaobjects
        (postHandle username post.id) (upsertPostFields post fileIds)) }
  | Event.upsertList igData postObjectIds username displayName =>
    { store with listMetaobjects := (upsertByHandle store.listMetaobjects
        (username ++ "-feed-list") (upsertListFields igData postObjectIds username displayName)) }
  | _ => store

/-- Effect of a whole trace on the store, in order. -/
def applyEvents (store : Store) (events : List Event) : Store :=
  events.foldl applyEvent store

/-- Character-level view of a serialized string array after the
opening bracket. -/
def encodedTail : List String → List Char
  | [] => [']']
  | [s] => '"' :: (s.data ++ '"' :: ']' :: [])
  | s :: rest => '"' :: (s.data ++ '"' :: ',' :: encodedTail rest)

/-- A remote post whose caption, like count and comment count are all
absent (`undefined`) in the fetched JSON. -/
def postWithAbsentFields : InstagramPost :=
  { id := "17900000000000001", media_type := "IMAGE",
    media_url := "https://cdn.example/img.jpg", caption := none,
    like_count := none, comments_count := none, children := none }

/-- Does this traced call write the feed-list record store? -/
def touchesListRecords : Event → Bool
  | Event.deleteListRecord _ => true
  | Event.upsertList _ _ _ _ => true
  | _ => false

/-- Is this traced call the ListAggregator upsert? -/
def isListUpsertEvent : Event → Bool
  | Event.upsertList _ _ _ _ => true
  | _ => false

/-- Is this traced call a per-post upsert? -/
def isPostUpsertEvent : Event → Bool
  | Event.upsertPost _ _ _ => true
  | _ => false

/-- A store with no records and no files. -/
def emptyStore : Store :=
  { postMetaobjects := [], listMetaobjects := [], files := [] }

/-- A media oracle none of whose operations ever succeeds (the network
and the store throw on every call). -/
def failingMediaOracle : MediaOracle :=
  { fetchVideo := fun _ => Except.error "network down",
    stagedUploadsCreate := fun _ _ => Except.error "network down",
    stagedPost := fun _ => Except.error "network down",
    fileCreate := fun _ _ _ => Except.error "network down" }

/-- A media oracle that creates exactly one file per request, its id
derived from the source URL. -/
def singleFileMediaOracle : MediaOracle :=
  { fetchVideo := fun _ => Except.error "unused",
    stagedUploadsCreate := fun _ _ => Except.error "unused",
    stagedPost := fun _ => Except.error "unused",
    fileCreate := fun u _ _ => Except.ok { data := some { fileCreate := some { files := [{ id := "gid-" ++ u }], userErrors := [] } } } }

/-- A run oracle whose uploads create one file each and whose upserts
all succeed, the written record's id derived from its handle. -/
def okRunOracle : RunOracle :=
  { media := singleFileMediaOracle,
    upsertPost := fun h _ => { data := some { metaobjectUpsert := some { metaobject := some { id := "m-" ++ h }, userErrors := [] } } },
    upsertList := fun h _ => { data := some { metaobjectUpsert := some { metaobject := some { id := "l-" ++ h }, userErrors := [] } } } }

/-- A run oracle whose uploads throw and whose upserts answer with an
empty `data` payload. -/
def failingRunOracle : RunOracle :=
  { media := failingMediaOracle,
    upsertPost := fun _ _ => { data := none },
    upsertList := fun _ _ => { data := none } }

/-- A remote carousel post whose (truthy) children array is empty. -/
def carouselNoChildren : InstagramPost :=
  { id := "9", media_type := "CAROUSEL_ALBUM", media_url := "https://cdn.example/9",
    caption := some "c", like_count := some 1, comments_count := some 1,
    children := some [] }

/-- The stored account for the reconciliation examples: username
`alice`, no credential expiry. -/
def accAliceStored : Account :=
  { id := "acct-1", username := some "alice", expiresAt := none }

/-- A fetch returning a single new remote post. -/
def igOneNewPost : IgMediaResponse :=
  { error := none,
    data := some [{ id := "n1", media_type := "IMAGE", media_url := "https://cdn.example/n1", caption := some "hello", like_count := some 5, comments_count := some 2, children := none }] }

/-- A profile fetch returning the new identity `bob`. -/
def userBob : IgUserResponse := { error := none, username := "bob", name := "Bob" }

/-- A store holding only `alice`'s feed-list record. -/
def storeWithAliceList : Store :=
  { postMetaobjects := [],
    listMetaobjects := [{ id := "list-1", handle := "alice-feed-list", fields := [] }],
    files := [] }

/-- A fetch whose media collection is present but empty. -/
def igEmptyFeed : IgMediaResponse := { error := none, data := some [] }

/-- A profile fetch returning the unchanged identity `alice`. -/
def userAlice : IgUserResponse := { error := none, username := "alice", name := "Alice" }

/-- A store holding `alice`'s synced post record for remote post `7`. -/
def storeWithStoredPost : Store :=
  { postMetaobjects := [{ id := "rec-7", handle := "alice-post-7", fields := [{ key := "images", value := encodeStringList ["gid-1", "gid-2"] }] }],
    listMetaobjects := [], files := [] }

/-- Remote post `7` fetched again with a fresh caption. -/
def postSeven : InstagramPost :=
  { id := "7", media_type := "IMAGE", media_url := "https://cdn.example/7", caption := some "fresh caption", like_count := some 3, comments_count := some 1, children := none }

/-- A store holding `alice`'s and `carol`'s records and files, to
exercise the prefix filters of the teardown. -/
def storeAliceFull : Store :=
  { postMetaobjects := [{ id := "rec-1", handle := "alice-post-1", fields := [] }, { id := "rec-x", handle := "carol-post-2", fields := [] }],
    listMetaobjects := [{ id := "list-1", handle := "alice-feed-list", fields := [] }],
    files := [{ id := "file-1", alt := "alice-post_1" }, { id := "file-2", alt := "carol-post_2" }] }

/-- Remote posts `a` and `b`, both previously synced under `bob`. -/
def postLetterA : InstagramPost :=
  { id := "a", media_type := "IMAGE", media_url := "https://cdn.example/a", caption := some "ca", like_count := some 1, comments_count := some 0, children := none }

def postLetterB : InstagramPost :=
  { id := "b", media_type := "IMAGE", media_url := "https://cdn.example/b", caption := some "cb", like_count := some 2, comments_count := some 0, children := none }

/-- A fetch returning posts `a` and `b`. -/
def igPostsAB : IgMediaResponse := { error := none, data := some [postLetterA, postLetterB] }

/-- A store holding `bob`'s records for posts `a` and `b`. -/
def storePostsAB : Store :=
  { postMetaobjects := [{ id := "rec-a", handle := "bob-post-a", fields := [{ key := "images", value := encodeStringList ["gid-a"] }] }, { id := "rec-b", handle := "bob-post-b", fields := [{ key := "images", value := encodeStringList ["gid-b"] }] }],
    listMetaobjects := [], files := [] }

/-- A run oracle that answers the upsert at handle `bob-post-a` with a
user error and every other upsert with a success id. -/
def mixedRunOracle : RunOracle :=
  { media := failingMediaOracle,
    upsertPost := fun h _ => if h == "bob-post-a" then { data := some { metaobjectUpsert := some { metaobject := none, userErrors := [{ errorField := some "handle", message := "taken" }] } } } else { data := some { metaobjectUpsert := some { metaobject := some { id := "m-" ++ h }, userErrors := [] } } },
    upsertList := fun h _ => { data := some { metaobjectUpsert := some { metaobject := some { id := "l-" ++ h }, userErrors := [] } } } }

/-- A carousel post with three children, all images. -/
def carouselThree : InstagramPost :=
  { id := "30", media_type := "CAROUSEL_ALBUM", media_url := "https://cdn.example/30", caption := some "trip", like_count := some 4, comments_count := some 1, children := some [{ id := "c1", media_url := "https://cdn.example/c1", media_type := "IMAGE" }, { id := "c2", media_url := "https://cdn.example/c2", media_type := "IMAGE" }, { id := "c3", media_url := "https://cdn.example/c3", media_type := "IMAGE" }] }

/-- The three children of `carouselThree`. -/
def carouselThreeChildren : List InstagramChild :=
  [{ id := "c1", media_url := "https://cdn.example/c1", media_type := "IMAGE" }, { id := "c2", media_url := "https://cdn.example/c2", media_type := "IMAGE" }, { id := "c3", media_url := "https://cdn.example/c3", media_type := "IMAGE" }]

/-- Characters of an appended string. -/
theorem string_data_append (a b : String) : (a ++ b).data = a.data ++ b.data := rfl

/-- Structure eta for strings. -/
theorem string_mk_data (s : String) : String.mk s.data = s := rfl

theorem encodeItems_tail : ∀ l : List String,
    (encodeItems l).data ++ [']'] = encodedTail l
  | [] => by simp [encodeItems, encodedTail]
  | [s] => by
    simp [encodeItems, encodedTail, encodeJsonString, string_data_append]
  | s :: s' :: rest => by
    have ih := encodeItems_tail (s' :: rest)
    simp only [encodeItems, encodedTail, encodeJsonString, string_data_append,
      List.append_assoc, List.cons_append, List.nil_append] at ih ⊢
    rw [ih]

theorem encodeStringList_data (l : List String) :
    (encodeStringList l).data = '[' :: encodedTail l := by
  show (("[" ++ encodeItems l) ++ "]").data = '[' :: encodedTail l
  rw [string_data_append, string_data_append, ← encodeItems_tail l]
  simp

theorem takeWhile_until_quote : ∀ (s t : List Char), '"' ∉ s →
    (s ++ '"' :: t).takeWhile (fun x => x != '"') = s
  | [], t, _ => by simp [List.takeWhile_cons]
  | c :: s, t, h => by
    have hc : c ≠ '"' := fun hh => h (hh ▸ List.mem_cons_self c s)
    have ih := takeWhile_until_quote s t (fun hm => h (List.mem_cons_of_mem c hm))
    simp [List.takeWhile_cons, hc, ih]

theorem encodedTail_length : ∀ l : List String,
    l.length + 1 ≤ (encodedTail l).length
  | [] => by simp [encodedTail]
  | [s] => by simp [encodedTail]
  | s :: s' :: rest => by
    have ih := encodedTail_length (s' :: rest)
    simp only [encodedTail, List.length_cons, List.length_append] at ih ⊢
    omega

theorem parse_encodedTail : ∀ (l : List String) (fuel : Nat),
    l.length + 1 ≤ fuel → (∀ s ∈ l, '"' ∉ s.data) →
    parseStringItems fuel (encodedTail l) = some l
  | [], fuel, hfuel, _ => by
    obtain ⟨f, rfl⟩ : ∃ f, fuel = f + 1 := ⟨fuel - 1, by omega⟩
    simp [encodedTail, parseStringItems]
  | [s], fuel, hfuel, hq => by
    obtain ⟨f, rfl⟩ : ∃ f, fuel = f + 1 := ⟨fuel - 1, by omega⟩
    have hs : '"' ∉ s.data := hq s (by simp)
    simp only [encodedTail, parseStringItems]
    rw [if_neg (by simp)]
    simp only [takeWhile_until_quote s.data (']' :: []) hs, List.drop_left]
    rfl
  | s :: s' :: rest, fuel, hfuel, hq => by
    obtain ⟨f, rfl⟩ : ∃ f, fuel = f + 1 := ⟨fuel - 1, by omega⟩
    have hs : '"' ∉ s.data := hq s (by simp)
    have ih := parse_encodedTail (s' :: rest) f (by simp at hfuel ⊢; omega)
      (fun x hx => hq x (List.mem_cons_of_mem s hx))
    simp only [encodedTail, parseStringItems]
    rw [if_neg (by simp)]
    simp only [takeWhile_until_quote s.data (',' :: encodedTail (s' :: rest)) hs,
      List.drop_left]
    show (parseStringItems f (encodedTail (s' :: rest))).map
      (fun items => (⟨s.data⟩ : String) :: items) = some (s :: s' :: rest)
    rw [ih]
    rfl

/-- Round trip: decoding a serialized string array whose items contain
no double quote recovers the array. -/
theorem decode_encode (l : List String) (hq : ∀ s ∈ l, '"' ∉ s.data) :
    decodeStringList (encodeStringList l) = l := by
  unfold decodeStringList
  rw [encodeStringList_data l]
  show (if ('[' : Char) = '[' then
      (parseStringItems (encodedTail l).length (encodedTail l)).getD [] else []) = l
  rw [if_pos rfl, parse_encodedTail l _ (encodedTail_length l) hq]
  rfl

theorem getExistingPost_stored (store : Store) (postId username : String)
    (m : StoredMetaobject) (ids : List String)
    (hfind : store.postMetaobjects.find?
      (fun r => r.handle == username ++ "-post-" ++ postId) = some m)
    (himg : m.fields.find? (fun f => f.key == "images") =
      some { key := "images", value := encodeStringList ids })
    (hq : ∀ s ∈ ids, '"' ∉ s.data) :
    getExistingPost store postId username =
      some { metaobjectId := m.id, fileIds := ids, handle := m.handle } := by
  simp only [getExistingPost, hfind, himg]
  simp [decode_encode ids hq]

theorem processPost_existing (o : RunOracle) (store : Store) (username : String)
    (post : InstagramPost) (existing : ExistingPost)
    (h : getExistingPost store post.id username = some existing) :
    processPost o store username post =
      (collectUpsertId (upsertPostMetaobject o post existing.fileIds username),
       [Event.upsertPost post existing.fileIds username]) := by
  unfold processPost
  rw [h]

theorem uploadCarouselChildren_all_single (o : RunOracle) (username postId : String)
    (fid : InstagramChild → String) :
    ∀ cs : List InstagramChild,
    (∀ c ∈ cs, extractFileIds (uploadMediaFile o.media c.media_url c.media_type
      (username ++ "-post_" ++ postId ++ "_" ++ c.id)) = [fid c]) →
    uploadCarouselChildren o username postId cs =
      (cs.map fid,
       cs.map (fun c => Event.uploadMedia c.media_url c.media_type
         (username ++ "-post_" ++ postId ++ "_" ++ c.id)))
  | [], _ => rfl
  | c :: rest, h => by
    have ih := uploadCarouselChildren_all_single o username postId fid rest
      (fun x hx => h x (List.mem_cons_of_mem c hx))
    simp only [uploadCarouselChildren, ih, h c (List.mem_cons_self c rest), List.map_cons,
      List.singleton_append]

/-- **C7** (amended): for every new (not previously recorded) remote
post of kind `CAROUSEL_ALBUM` with `n ≥ 1` children whose transfers
all succeed with one file each, the per-post processing performs
exactly `n` media transfers — one per child, in child order, each
tagged `{username}-post_{postId}_{childId}` — and exactly one upsert
whose media-reference list is the `n` returned ids in child order.
(The amendment restricts the claim to `n ≥ 1`: with zero children the
code performs no upsert at all, see the counterexample.) -/
theorem processPost_new_carousel
    (o : RunOracle) (store : Store) (username : String) (post : InstagramPost)
    (cs : List InstagramChild) (fid : InstagramChild → String)
    (hnew : getExistingPost store post.id username = none)
    (hkind : post.media_type = "CAROUSEL_ALBUM")
    (hch : post.children = some cs)
    (hne : cs ≠ [])
    (hup : ∀ c ∈ cs, extractFileIds (uploadMediaFile o.media c.media_url c.media_type
      (username ++ "-post_" ++ post.id ++ "_" ++ c.id)) = [fid c]) :
    processPost o store username post =
      (collectUpsertId (upsertPostMetaobject o post (cs.map fid) username),
       cs.map (fun c => Event.uploadMedia c.media_url c.media_type
         (username ++ "-post_" ++ post.id ++ "_" ++ c.id))
       ++ [Event.upsertPost post (cs.map fid) username]) := by
  simp only [processPost, hnew, hkind, hch, Option.isSome_some, Option.getD_some,
    beq_self_eq_true, Bool.and_self, if_true]
  rw [uploadCarouselChildren_all_single o username post.id fid cs hup]
  simp only [List.length_map]
  rw [if_pos (List.length_pos.mpr hne)]

theorem uploadVideoBody_ok_from_fileCreate (o : MediaOracle) (videoUrl alt : String)
    (r : FileCreateResponse) (h : uploadVideoBody o videoUrl alt = Except.ok r) :
    ∃ src ct, o.fileCreate src alt ct = Except.ok r := by
  unfold uploadVideoBody at h
  cases hf : o.fetchVideo videoUrl with
  | error e => rw [hf] at h; simp [Bind.bind, Except.bind] at h
  | ok dl =>
    rw [hf] at h
    simp only [Bind.bind, Except.bind] at h
    cases hok : dl.ok with
    | false => rw [hok] at h; simp at h
    | true =>
      rw [hok] at h
      simp only [Bool.not_true, Bool.false_eq_true, if_false] at h
      cases hs : o.stagedUploadsCreate (alt ++ ".mp4") dl.byteLength with
      | error e => rw [hs] at h; simp [Except.bind] at h
      | ok stagedData =>
        rw [hs] at h
        simp only [Except.bind] at h
        cases ht : (stagedData.data.bind (fun d => d.stagedUploadsCreate)).bind
            (fun s => s.stagedTargets.head?) with
        | none => rw [ht] at h; simp at h
        | some stagedTarget =>
          rw [ht] at h
          simp only [Except.bind] at h
          cases hu : o.stagedPost stagedTarget.url with
          | error e => rw [hu] at h; simp [Except.bind] at h
          | ok up =>
            rw [hu] at h
            simp only [Except.bind] at h
            cases hupok : up.ok with
            | false => rw [hupok] at h; simp at h
            | true =>
              rw [hupok] at h
              simp only [Bool.not_true, Bool.false_eq_true, if_false] at h
              exact ⟨stagedTarget.resourceUrl, "VIDEO", h⟩

/-- **C5**: for every media transfer input (image or video), any failure
in the transfer — download failure, staged-upload creation failure,
upload failure, or store-side user errors — yields a result object with
an empty file list and a human-readable error message carried in its
user errors, and `uploadMediaFile` never propagates an exception: every
`try`-body failure (`uploadAttempt` / `uploadVideoBody` error) is
converted into `mkCaughtErrorResponse` and every `try`-body success is
returned as is.  (The hypothesis states that the store's own error
responses carry no created files, as the store's `fileCreate` mutation
guarantees.) -/
theorem uploadMediaFile_failure_contained
    (o : MediaOracle) (mediaUrl mediaType alt : String)
    (hwf : ∀ u a c r, o.fileCreate u a c = Except.ok r →
      fileCreateUserErrors r ≠ [] → extractFileIds r = []) :
    (fileCreateUserErrors (uploadMediaFile o mediaUrl mediaType alt) ≠ [] →
      extractFileIds (uploadMediaFile o mediaUrl mediaType alt) = []) ∧
    (∀ msg, uploadAttempt o mediaUrl mediaType alt = Except.error msg →
      uploadMediaFile o mediaUrl mediaType alt = mkCaughtErrorResponse msg) ∧
    (∀ msg, mediaType = "VIDEO" → uploadVideoBody o mediaUrl alt = Except.error msg →
      uploadMediaFile o mediaUrl mediaType alt = mkCaughtErrorResponse msg) ∧
    (∀ r, uploadAttempt o mediaUrl mediaType alt = Except.ok r →
      uploadMediaFile o mediaUrl mediaType alt = r) := by
  refine ⟨?_, ?_, ?_, ?_⟩
  · intro hne
    cases ha : uploadAttempt o mediaUrl mediaType alt with
    | error msg =>
      unfold uploadMediaFile
      rw [ha]
      rfl
    | ok r =>
      unfold uploadMediaFile at hne ⊢
      rw [ha] at hne ⊢
      by_cases hv : (mediaType == "VIDEO") = true
      · unfold uploadAttempt at ha
        rw [if_pos hv] at ha
        have hr : uploadVideoWithStaging o mediaUrl alt = r := by
          injection ha
        unfold uploadVideoWithStaging at hr
        cases hb : uploadVideoBody o mediaUrl alt with
        | error msg => rw [hb] at hr; rw [← hr]; rfl
        | ok rr =>
          rw [hb] at hr
          have hr2 : rr = r := hr
          obtain ⟨src, ct, hfc⟩ :=
            uploadVideoBody_ok_from_fileCreate o mediaUrl alt rr hb
          subst hr2
          exact hwf src alt ct rr hfc hne
      · unfold uploadAttempt at ha
        rw [if_neg hv] at ha
        exact hwf mediaUrl alt "IMAGE" r ha hne
  · intro msg h
    unfold uploadMediaFile
    rw [h]
  · intro msg hmt h
    unfold uploadMediaFile uploadAttempt
    subst hmt
    rw [if_pos (by rfl)]
    unfold uploadVideoWithStaging
    rw [h]
  · intro r h
    unfold uploadMediaFile
    rw [h]

/-- **C1**: `upsertPostMetaobject` does default an absent or empty
caption to `"No caption"`, but an absent like or comment count is
written as the string `"undefined"`, not `"0"`: `String(undefined)` is
the truthy string `"undefined"`, so the `|| "0"` fallback in the source
can never fire.  The claimed `"0"` default is the evident intent of
that dead fallback, but it is not what the code writes. -/
theorem upsertPostFields_absent_counts_written_as_undefined :
    fieldValue (upsertPostFields postWithAbsentFields []) "caption" = some "No caption" ∧
    fieldValue (upsertPostFields postWithAbsentFields []) "likes" = some "undefined" ∧
    fieldValue (upsertPostFields postWithAbsentFields []) "comments" = some "undefined" ∧
    fieldValue (upsertPostFields postWithAbsentFields []) "likes" ≠ some "0" ∧
    fieldValue (upsertPostFields postWithAbsentFields []) "comments" ≠ some "0" := by
  decide

/-- **C2**: for a remote post whose record is found under the handle
`{username}-post-{postId}` with a stored `images` field, the per-post
processing performs zero `uploadMediaFile` invocations (no
`uploadMedia` event in its trace) and exactly one upsert call whose
media-reference list is exactly the stored file-id list, with the
freshly fetched caption in the written fields. -/
theorem existing_post_reuses_stored_media
    (o : RunOracle) (store : Store) (username : String) (post : InstagramPost)
    (m : StoredMetaobject) (ids : List String)
    (hfind : store.postMetaobjects.find?
      (fun r => r.handle == username ++ "-post-" ++ post.id) = some m)
    (himg : m.fields.find? (fun f => f.key == "images") =
      some { key := "images", value := encodeStringList ids })
    (hq : ∀ s ∈ ids, '"' ∉ s.data) :
    processPost o store username post =
      (collectUpsertId (upsertPostMetaobject o post ids username),
       [Event.upsertPost post ids username]) ∧
    fieldValue (upsertPostFields post ids) "caption" =
      some (jsOr (post.caption.getD "") "No caption") := by
  refine ⟨?_, rfl⟩
  exact processPost_existing o store username post
    { metaobjectId := m.id, fileIds := ids, handle := m.handle }
    (getExistingPost_stored store post.id username m ids hfind himg hq)

theorem syncAction_main (acc : Account) (now : Int) (igData : IgMediaResponse)
    (userData : IgUserResponse) (store : Store) (o : RunOracle)
    (hexp : tokenExpired acc.expiresAt now = false)
    (hig : igData.error = none) (huser : userData.error = none)
    (hposts : jsEmptyPosts igData.data = false) :
    syncAction (some acc) now igData userData store o =
      { result := RunResult.success userData.username userData.name,
        events := [Event.fetchMedia, Event.fetchProfile] ++
          (if identitySwitch acc.username userData.username then
            deleteOldAccountData store (acc.username.getD "") else []) ++
          (if usernameNeedsUpdate acc.username userData.username then
            [Event.setUsername acc.id userData.username] else []) ++
          (processPosts o store userData.username (igData.data.getD [])).2 ++
          (if (processPosts o store userData.username (igData.data.getD [])).1.length > 0 then
            [Event.upsertList igData
              (processPosts o store userData.username (igData.data.getD [])).1
              userData.username userData.name]
          else []),
        postObjectIds := (processPosts o store userData.username (igData.data.getD [])).1 } := by
  simp only [syncAction, hexp, hig, huser, hposts, Bool.false_eq_true, if_false]

/-- **C6**: a fetch that returns zero remote posts makes the run return
success with a zero posts count, the trace holding only the two
fetches — no record upsert, no list mutation, no file creation, no
stored-username update — and the store is left unchanged. -/
theorem empty_feed_short_circuit (acc : Account) (now : Int)
    (igData : IgMediaResponse) (userData : IgUserResponse) (store : Store)
    (o : RunOracle)
    (hexp : tokenExpired acc.expiresAt now = false)
    (hig : igData.error = none) (huser : userData.error = none)
    (hempty : jsEmptyPosts igData.data = true) :
    syncAction (some acc) now igData userData store o =
      { result := RunResult.successNoPosts "No Instagram posts found to sync" 0,
        events := [Event.fetchMedia, Event.fetchProfile], postObjectIds := [] } ∧
    applyEvents store [Event.fetchMedia, Event.fetchProfile] = store := by
  constructor
  · simp only [syncAction, hexp, hig, huser, hempty, Bool.false_eq_true, if_false, if_true]
  · rfl

/-- **C8**: a credential whose expiry timestamp is in the past makes
the run stop with the structured expired-credential error before any
remote API call and before any write: the trace is empty. -/
theorem expired_token_short_circuit (acc : Account) (now t : Int)
    (igData : IgMediaResponse) (userData : IgUserResponse) (store : Store)
    (o : RunOracle)
    (hexpAt : acc.expiresAt = some t) (hlt : t < now) :
    syncAction (some acc) now igData userData store o =
      { result := RunResult.errorTokenExpired
          "Instagram token has expired. Please reconnect your Instagram account." true,
        events := [], postObjectIds := [] } := by
  have hexp : tokenExpired acc.expiresAt now = true := by
    simp [tokenExpired, hexpAt, hlt]
  simp only [syncAction, hexp, if_true]

/-- **C10**: with an empty feed the run returns before the
identity-change branch: even when the stored username differs from the
fresh one, no teardown delete happens, the stored username is not
updated, and every record, list record and file of the old identity
persists unchanged. -/
theorem empty_feed_defers_reconciliation (acc : Account) (now : Int)
    (igData : IgMediaResponse) (userData : IgUserResponse) (store : Store)
    (o : RunOracle) (storedU : String)
    (hstored : acc.username = some storedU) (hne : storedU ≠ "")
    (hdiff : storedU ≠ userData.username)
    (hexp : tokenExpired acc.expiresAt now = false)
    (hig : igData.error = none) (huser : userData.error = none)
    (hempty : jsEmptyPosts igData.data = true) :
    (syncAction (some acc) now igData userData store o).events =
      [Event.fetchMedia, Event.fetchProfile] ∧
    (∀ recordId : String,
      Event.deletePostRecord recordId ∉ (syncAction (some acc) now igData userData store o).events ∧
      Event.deleteListRecord recordId ∉ (syncAction (some acc) now igData userData store o).events) ∧
    (∀ fileIds : List String,
      Event.fileDelete fileIds ∉ (syncAction (some acc) now igData userData store o).events) ∧
    (∀ accountId u : String,
      Event.setUsername accountId u ∉ (syncAction (some acc) now igData userData store o).events) ∧
    applyEvents store (syncAction (some acc) now igData userData store o).events = store := by
  have h : syncAction (some acc) now igData userData store o =
      { result := RunResult.successNoPosts "No Instagram posts found to sync" 0,
        events := [Event.fetchMedia, Event.fetchProfile], postObjectIds := [] } := by
    simp only [syncAction, hexp, hig, huser, hempty, Bool.false_eq_true, if_false, if_true]
  rw [h]
  refine ⟨rfl, ?_, ?_, ?_, rfl⟩
  · intro recordId
    constructor <;> simp
  · intro fileIds
    simp
  · intro accountId u
    simp

theorem collectUpsertId_none_of_userErrors (r : MetaobjectUpsertResponse)
    (h : upsertUserErrors r ≠ []) : collectUpsertId r = none := by
  unfold collectUpsertId
  rw [if_pos (List.length_pos.mpr h)]

theorem processPosts_append (o : RunOracle) (store : Store) (u : String) :
    ∀ xs ys : List InstagramPost,
    processPosts o store u (xs ++ ys) =
      ((processPosts o store u xs).1 ++ (processPosts o store u ys).1,
       (processPosts o store u xs).2 ++ (processPosts o store u ys).2)
  | [], ys => by simp [processPosts]
  | x :: xs, ys => by
    have ih := processPosts_append o store u xs ys
    simp only [List.cons_append, processPosts, List.append_eq, ih, List.append_assoc]

/-- **C4**: in any run whose feed holds post A and post B (in this
order, with arbitrary other posts around them), where the upsert of A
reports store user errors and the upsert of B succeeds with identifier
`idB`, the posts-reference list written to the ListRecord at the end of
the run consists of the other posts' accumulated identifiers plus
`idB` in B's position — A contributes no identifier at all — and A's
failure aborts neither the loop (B's upsert still happens) nor the run
(the result is still success). -/
theorem partial_failure_excludes_failed_post (acc : Account) (now : Int)
    (igData : IgMediaResponse) (userData : IgUserResponse) (store : Store)
    (o : RunOracle) (postA postB : InstagramPost) (recA recB : ExistingPost)
    (idB : String) (pre mid suf : List InstagramPost)
    (hexp : tokenExpired acc.expiresAt now = false)
    (hig : igData.error = none) (huser : userData.error = none)
    (hdata : igData.data = some (pre ++ postA :: mid ++ postB :: suf))
    (hA : getExistingPost store postA.id userData.username = some recA)
    (hB : getExistingPost store postB.id userData.username = some recB)
    (hAerr : upsertUserErrors
      (upsertPostMetaobject o postA recA.fileIds userData.username) ≠ [])
    (hBok : collectUpsertId
      (upsertPostMetaobject o postB recB.fileIds userData.username) = some idB) :
    (syncAction (some acc) now igData userData store o).postObjectIds =
      (processPosts o store userData.username pre).1 ++
      (processPosts o store userData.username mid).1 ++
      idB :: (processPosts o store userData.username suf).1 ∧
    Event.upsertList igData
      ((processPosts o store userData.username pre).1 ++
        (processPosts o store userData.username mid).1 ++
        idB :: (processPosts o store userData.username suf).1)
      userData.username userData.name ∈
      (syncAction (some acc) now igData userData store o).events ∧
    Event.upsertPost postA recA.fileIds userData.username ∈
      (syncAction (some acc) now igData userData store o).events ∧
    Event.upsertPost postB recB.fileIds userData.username ∈
      (syncAction (some acc) now igData userData store o).events ∧
    (syncAction (some acc) now igData userData store o).result =
      RunResult.success userData.username userData.name := by
  have hposts : jsEmptyPosts igData.data = false := by
    rw [hdata]
    simp [jsEmptyPosts]
  have hApp := processPost_existing o store userData.username postA recA hA
  have hBpp := processPost_existing o store userData.username postB recB hB
  have hloop : processPosts o store userData.username
      (pre ++ postA :: mid ++ postB :: suf) =
      ((processPosts o store userData.username pre).1 ++
        (processPosts o store userData.username mid).1 ++
        idB :: (processPosts o store userData.username suf).1,
       (processPosts o store userData.username pre).2 ++
        Event.upsertPost postA recA.fileIds userData.username ::
        ((processPosts o store userData.username mid).2 ++
          Event.upsertPost postB recB.fileIds userData.username ::
          (processPosts o store userData.username suf).2)) := by
    rw [show pre ++ postA :: mid ++ postB :: suf =
      pre ++ (postA :: (mid ++ postB :: suf)) from by simp]
    rw [processPosts_append o store userData.username pre (postA :: (mid ++ postB :: suf))]
    simp only [processPosts, hApp, hBpp, collectUpsertId_none_of_userErrors _ hAerr, hBok,
      processPosts_append o store userData.username mid (postB :: suf)]
    simp [List.append_assoc]
  have hmain := syncAction_main acc now igData userData store o hexp hig huser hposts
  rw [hmain]
  simp only [hdata, Option.getD_some, hloop]
  have hlen : ((processPosts o store userData.username pre).1 ++
      (processPosts o store userData.username mid).1 ++
      idB :: (processPosts o store userData.username suf).1).length > 0 := by
    simp
  rw [if_pos hlen]
  refine ⟨by simp, by simp, by simp, by simp, by simp⟩

theorem deleteOldAccountData_deletes_posts (store : Store) (u : String) :
    ∀ m ∈ store.postMetaobjects.take 250,
      (u ++ "-post-").isPrefixOf m.handle = true →
      Event.deletePostRecord m.id ∈ deleteOldAccountData store u := by
  intro m hm hpre
  simp only [deleteOldAccountData]
  apply List.mem_append_left
  apply List.mem_append_left
  exact List.mem_map_of_mem _ (List.mem_filter.mpr ⟨hm, hpre⟩)

theorem deleteOldAccountData_deletes_list (store : Store) (u : String) :
    ∀ m, store.listMetaobjects.find? (fun r => r.handle == u ++ "-feed-list") = some m →
      Event.deleteListRecord m.id ∈ deleteOldAccountData store u := by
  intro m hfind
  simp only [deleteOldAccountData, hfind]
  apply List.mem_append_left
  apply List.mem_append_right
  simp

theorem deleteOldAccountData_deletes_files (store : Store) (u : String) :
    ∀ f ∈ (store.files.filter (fun f => (u ++ "-post_").isPrefixOf f.alt)).take 250,
      ∃ ids, Event.fileDelete ids ∈ deleteOldAccountData store u ∧ f.id ∈ ids := by
  intro f hf
  have hpre : (u ++ "-post_").isPrefixOf f.alt = true :=
    (List.mem_filter.mp (List.mem_of_mem_take hf)).2
  have hfOld : f ∈ ((store.files.filter
      (fun f => (u ++ "-post_").isPrefixOf f.alt)).take 250).filter
      (fun f => (u ++ "-post_").isPrefixOf f.alt) :=
    List.mem_filter.mpr ⟨hf, hpre⟩
  refine ⟨(((store.files.filter (fun f => (u ++ "-post_").isPrefixOf f.alt)).take 250).filter
      (fun f => (u ++ "-post_").isPrefixOf f.alt)).map (fun f => f.id), ?_, ?_⟩
  · simp only [deleteOldAccountData]
    apply List.mem_append_right
    rw [if_pos (List.length_pos.mpr (List.ne_nil_of_mem hfOld))]
    simp
  · exact List.mem_map_of_mem _ hfOld

/-- **C3**: when the stored username `X` is non-empty and differs from
the freshly fetched `Y`, the run's trace is exactly: the two fetches,
then the whole teardown of `deleteOldAccountData` for `X` — which
deletes every enumerated post record whose handle starts with
`X-post-`, deletes the `X-feed-list` record if present, and bulk
deletes every enumerated file whose alt text starts with `X-post_` —
then the persisting of `Y`, and only then the per-post loop and the
final list upsert. -/
theorem identity_switch_teardown_before_sync (acc : Account) (now : Int)
    (igData : IgMediaResponse) (userData : IgUserResponse) (store : Store)
    (o : RunOracle) (storedU : String)
    (hstored : acc.username = some storedU) (hne : storedU ≠ "")
    (hdiff : storedU ≠ userData.username)
    (hexp : tokenExpired acc.expiresAt now = false)
    (hig : igData.error = none) (huser : userData.error = none)
    (hposts : jsEmptyPosts igData.data = false) :
    (syncAction (some acc) now igData userData store o).events =
      [Event.fetchMedia, Event.fetchProfile] ++ deleteOldAccountData store storedU ++
      [Event.setUsername acc.id userData.username] ++
      (processPosts o store userData.username (igData.data.getD [])).2 ++
      (if (processPosts o store userData.username (igData.data.getD [])).1.length > 0 then
        [Event.upsertList igData
          (processPosts o store userData.username (igData.data.getD [])).1
          userData.username userData.name]
      else []) ∧
    (∀ m ∈ store.postMetaobjects.take 250,
      (storedU ++ "-post-").isPrefixOf m.handle = true →
      Event.deletePostRecord m.id ∈ deleteOldAccountData store storedU) ∧
    (∀ m, store.listMetaobjects.find?
        (fun r => r.handle == storedU ++ "-feed-list") = some m →
      Event.deleteListRecord m.id ∈ deleteOldAccountData store storedU) ∧
    (∀ f ∈ (store.files.filter
        (fun f => (storedU ++ "-post_").isPrefixOf f.alt)).take 250,
      ∃ ids, Event.fileDelete ids ∈ deleteOldAccountData store storedU ∧ f.id ∈ ids) := by
  refine ⟨?_, deleteOldAccountData_deletes_posts store storedU,
    deleteOldAccountData_deletes_list store storedU,
    deleteOldAccountData_deletes_files store storedU⟩
  have hswitch : identitySwitch (some storedU) userData.username = true := by
    simp [identitySwitch, bne_iff_ne, hne, hdiff]
  have hupdate : usernameNeedsUpdate (some storedU) userData.username = true := by
    simp [usernameNeedsUpdate, bne_iff_ne, hdiff]
  rw [syncAction_main acc now igData userData store o hexp hig huser hposts]
  simp [hstored, hswitch, hupdate, List.append_assoc]

theorem isListUpsert_false_of_touches_false (e : Event)
    (h : touchesListRecords e = false) : isListUpsertEvent e = false := by
  cases e <;> simp_all [touchesListRecords, isListUpsertEvent]

theorem applyEvent_preserves_lists (store : Store) (e : Event)
    (h : touchesListRecords e = false) :
    (applyEvent store e).listMetaobjects = store.listMetaobjects := by
  cases e <;> first | rfl | simp_all [touchesListRecords]

theorem applyEvents_preserve_lists : ∀ (events : List Event) (store : Store),
    (∀ e ∈ events, touchesListRecords e = false) →
    (applyEvents store events).listMetaobjects = store.listMetaobjects
  | [], _, _ => rfl
  | e :: rest, store, h => by
    have h1 := applyEvent_preserves_lists store e (h e (List.mem_cons_self e rest))
    have h2 := applyEvents_preserve_lists rest (applyEvent store e)
      (fun x hx => h x (List.mem_cons_of_mem e hx))
    calc (applyEvents store (e :: rest)).listMetaobjects
        = (applyEvents (applyEvent store e) rest).listMetaobjects := rfl
      _ = (applyEvent store e).listMetaobjects := h2
      _ = store.listMetaobjects := h1

theorem uploadCarouselChildren_events_shape (o : RunOracle) (u pid : String) :
    ∀ cs : List InstagramChild, ∀ e ∈ (uploadCarouselChildren o u pid cs).2,
      touchesListRecords e = false
  | [], e, he => by simp [uploadCarouselChildren] at he
  | c :: rest, e, he => by
    simp only [uploadCarouselChildren] at he
    rcases List.mem_cons.mp he with h | h
    · subst h; rfl
    · exact uploadCarouselChildren_events_shape o u pid rest e h

theorem processPost_events_shape (o : RunOracle) (store : Store) (u : String)
    (p : InstagramPost) :
    ∀ e ∈ (processPost o store u p).2, touchesListRecords e = false := by
  intro e he
  unfold processPost at he
  cases hg : getExistingPost store p.id u with
  | some ex =>
    rw [hg] at he
    simp at he
    subst he
    rfl
  | none =>
    rw [hg] at he
    simp only at he
    by_cases hc : (p.media_type == "CAROUSEL_ALBUM" && p.children.isSome) = true
    · rw [if_pos hc] at he
      by_cases hl : (uploadCarouselChildren o u p.id (p.children.getD [])).1.length > 0
      · rw [if_pos hl] at he
        simp only at he
        rcases List.mem_append.mp he with h | h
        · exact uploadCarouselChildren_events_shape o u p.id (p.children.getD []) e h
        · simp at h; subst h; rfl
      · rw [if_neg hl] at he
        exact uploadCarouselChildren_events_shape o u p.id (p.children.getD []) e he
    · rw [if_neg hc] at he
      by_cases hl : (extractFileIds (uploadMediaFile o.media p.media_url p.media_type
          (u ++ "-post_" ++ p.id))).length > 0
      · rw [if_pos hl] at he
        simp only at he
        rcases List.mem_append.mp he with h | h
        · simp at h; subst h; rfl
        · simp at h; subst h; rfl
      · rw [if_neg hl] at he
        simp at he
        subst he
        rfl

theorem processPosts_events_shape (o : RunOracle) (store : Store) (u : String) :
    ∀ posts : List InstagramPost, ∀ e ∈ (processPosts o store u posts).2,
      touchesListRecords e = false
  | [], e, he => by simp [processPosts] at he
  | p :: rest, e, he => by
    simp only [processPosts] at he
    rcases List.mem_append.mp he with h | h
    · exact processPost_events_shape o store u p e h
    · exact processPosts_events_shape o store u rest e h

theorem deleteOldAccountData_no_list_upsert (store : Store) (u : String) :
    ∀ e ∈ deleteOldAccountData store u, isListUpsertEvent e = false := by
  intro e he
  simp only [deleteOldAccountData] at he
  rcases List.mem_append.mp he with h | h
  · rcases List.mem_append.mp h with h2 | h2
    · rcases List.mem_map.mp h2 with ⟨m, _, rfl⟩
      rfl
    · cases hf : store.listMetaobjects.find? (fun m => m.handle == u ++ "-feed-list") with
      | some oldList =>
        rw [hf] at h2
        simp at h2
        subst h2
        rfl
      | none =>
        rw [hf] at h2
        simp at h2
  · by_cases hl : (((store.files.filter (fun f => (u ++ "-post_").isPrefixOf f.alt)).take
        250).filter (fun f => (u ++ "-post_").isPrefixOf f.alt)).length > 0
    · rw [if_pos hl] at h
      simp at h
      subst h
      rfl
    · rw [if_neg hl] at h
      simp at h

/-- **C9** (amended): if zero posts were successfully upserted in a run
(the accumulated identifier list is empty), the ListAggregator upsert
is never invoked — no `upsertList` call appears in the trace — and, in
a run that performs no identity-switch teardown, every list record is
left entirely unchanged.  (On an identity switch the reconciler may
still delete the old username's list record, which is why the frame
part is conditional.) -/
theorem no_list_write_when_zero_upserts (account : Option Account) (now : Int)
    (igData : IgMediaResponse) (userData : IgUserResponse) (store : Store)
    (o : RunOracle)
    (hzero : (syncAction account now igData userData store o).postObjectIds = []) :
    (∀ e ∈ (syncAction account now igData userData store o).events,
      isListUpsertEvent e = false) ∧
    ((∀ acc, account = some acc →
        identitySwitch acc.username userData.username = false) →
      (applyEvents store
        (syncAction account now igData userData store o).events).listMetaobjects =
        store.listMetaobjects) := by
  cases account with
  | none => exact ⟨by intro e he; simp [syncAction] at he, fun _ => rfl⟩
  | some acc =>
    by_cases hexp : tokenExpired acc.expiresAt now = true
    · rw [show syncAction (some acc) now igData userData store o =
        { result := RunResult.errorTokenExpired
            "Instagram token has expired. Please reconnect your Instagram account." true,
          events := [], postObjectIds := [] } from by simp only [syncAction, hexp, if_true]]
      exact ⟨by intro e he; simp at he, fun _ => rfl⟩
    · rw [Bool.not_eq_true] at hexp
      cases hig : igData.error with
      | some e0 =>
        rw [show syncAction (some acc) now igData userData store o =
          { result := RunResult.errorInstagramApi (igApiErrorMessage e0),
            events := [Event.fetchMedia], postObjectIds := [] } from by
          simp only [syncAction, hexp, hig, Bool.false_eq_true, if_false]]
        refine ⟨?_, fun _ => rfl⟩
        intro e he
        simp at he
        subst he
        rfl
      | none =>
        cases huser : userData.error with
        | some e0 =>
          rw [show syncAction (some acc) now igData userData store o =
            { result := RunResult.errorInstagramApi (igApiErrorMessage e0),
              events := [Event.fetchMedia, Event.fetchProfile], postObjectIds := [] } from by
            simp only [syncAction, hexp, hig, huser, Bool.false_eq_true, if_false]]
          refine ⟨?_, fun _ => rfl⟩
          intro e he
          simp at he
          rcases he with rfl | rfl <;> rfl
        | none =>
          by_cases hempty : jsEmptyPosts igData.data = true
          · rw [show syncAction (some acc) now igData userData store o =
              { result := RunResult.successNoPosts "No Instagram posts found to sync" 0,
                events := [Event.fetchMedia, Event.fetchProfile], postObjectIds := [] } from by
              simp only [syncAction, hexp, hig, huser, hempty, Bool.false_eq_true,
                if_false, if_true]]
            refine ⟨?_, fun _ => rfl⟩
            intro e he
            simp at he
            rcases he with rfl | rfl <;> rfl
          · rw [Bool.not_eq_true] at hempty
            have hmain := syncAction_main acc now igData userData store o hexp hig huser hempty
            rw [hmain] at hzero ⊢
            simp only at hzero
            simp only [hzero, List.length_nil, gt_iff_lt, lt_self_iff_false, if_false,
              List.append_nil]
            constructor
            · intro e he
              rcases List.mem_append.mp he with he | he
              · rcases List.mem_append.mp he with he | he
                · rcases List.mem_append.mp he with he | he
                  · simp at he
                    rcases he with rfl | rfl <;> rfl
                  · split at he
                    · exact deleteOldAccountData_no_list_upsert store _ e he
                    · simp at he
                · split at he
                  · simp at he
                    subst he
                    rfl
                  · simp at he
              · exact isListUpsert_false_of_touches_false e
                  (processPosts_events_shape o store userData.username _ e he)
            · intro hns
              have hsw := hns acc rfl
              rw [hsw]
              simp only [Bool.false_eq_true, if_false, List.nil_append]
              apply applyEvents_preserve_lists
              intro e he
              rcases List.mem_append.mp he with he | he
              · rcases List.mem_append.mp he with he | he
                · simp at he
                  rcases he with rfl | rfl <;> rfl
                · split at he
                  · simp at he
                    subst he
                    rfl
                  · simp at he
              · exact processPosts_events_shape o store userData.username _ e he

/-- **C7** (counterexample): for a new `CAROUSEL_ALBUM` post with
`n = 0` children — all of whose (zero) transfers vacuously succeed —
the per-post processing performs zero uploads as the claim says, but
also zero upserts, not the claimed exactly one: with no file ids the
`fileIds.length > 0` guard skips `upsertPostMetaobject` entirely. -/
theorem carousel_zero_children_performs_no_upsert :
    processPost okRunOracle emptyStore "alice" carouselNoChildren = (none, []) ∧
    (processPost okRunOracle emptyStore "alice" carouselNoChildren).2.countP
      isPostUpsertEvent = 0 := by
  decide

/-- **C9** (counterexample): in a run with stored username `alice`,
fresh username `bob`, one new post whose upload fails — so zero posts
are upserted and the ListAggregator is indeed never invoked — the
previously existing `alice-feed-list` record is nonetheless deleted by
the identity-switch teardown, so it is not left unchanged by the run. -/
theorem list_record_deleted_despite_zero_upserts :
    (syncAction (some accAliceStored) 0 igOneNewPost userBob storeWithAliceList
      failingRunOracle).postObjectIds = [] ∧
    storeWithAliceList.listMetaobjects ≠ [] ∧
    (applyEvents storeWithAliceList
      (syncAction (some accAliceStored) 0 igOneNewPost userBob storeWithAliceList
        failingRunOracle).events).listMetaobjects = [] := by
  decide

theorem existing_post_reuses_stored_media_witness :
    processPost okRunOracle storeWithStoredPost "alice" postSeven =
      (collectUpsertId (upsertPostMetaobject okRunOracle postSeven ["gid-1", "gid-2"] "alice"),
       [Event.upsertPost postSeven ["gid-1", "gid-2"] "alice"]) ∧
    fieldValue (upsertPostFields postSeven ["gid-1", "gid-2"]) "caption" =
      some (jsOr (postSeven.caption.getD "") "No caption") :=
  existing_post_reuses_stored_media okRunOracle storeWithStoredPost "alice" postSeven
    { id := "rec-7", handle := "alice-post-7", fields := [{ key := "images", value := encodeStringList ["gid-1", "gid-2"] }] }
    ["gid-1", "gid-2"] (by decide) (by decide) (by decide)

theorem identity_switch_teardown_before_sync_witness :
    (syncAction (some accAliceStored) 0 igOneNewPost userBob storeAliceFull okRunOracle).events =
      [Event.fetchMedia, Event.fetchProfile] ++ deleteOldAccountData storeAliceFull "alice" ++
      [Event.setUsername accAliceStored.id userBob.username] ++
      (processPosts okRunOracle storeAliceFull userBob.username (igOneNewPost.data.getD [])).2 ++
      (if (processPosts okRunOracle storeAliceFull userBob.username (igOneNewPost.data.getD [])).1.length > 0 then
        [Event.upsertList igOneNewPost
          (processPosts okRunOracle storeAliceFull userBob.username (igOneNewPost.data.getD [])).1
          userBob.username userBob.name]
      else []) ∧
    (∀ m ∈ storeAliceFull.postMetaobjects.take 250,
      ("alice" ++ "-post-").isPrefixOf m.handle = true →
      Event.deletePostRecord m.id ∈ deleteOldAccountData storeAliceFull "alice") ∧
    (∀ m, storeAliceFull.listMetaobjects.find?
        (fun r => r.handle == "alice" ++ "-feed-list") = some m →
      Event.deleteListRecord m.id ∈ deleteOldAccountData storeAliceFull "alice") ∧
    (∀ f ∈ (storeAliceFull.files.filter
        (fun f => ("alice" ++ "-post_").isPrefixOf f.alt)).take 250,
      ∃ ids, Event.fileDelete ids ∈ deleteOldAccountData storeAliceFull "alice" ∧ f.id ∈ ids) :=
  identity_switch_teardown_before_sync accAliceStored 0 igOneNewPost userBob
    storeAliceFull okRunOracle "alice" rfl (by decide) (by decide) rfl rfl rfl (by decide)

theorem partial_failure_excludes_failed_post_witness :
    (syncAction (some accAliceStored) 0 igPostsAB userBob storePostsAB
      mixedRunOracle).postObjectIds = ["m-bob-post-b"] ∧
    Event.upsertList igPostsAB ["m-bob-post-b"] userBob.username userBob.name ∈
      (syncAction (some accAliceStored) 0 igPostsAB userBob storePostsAB
        mixedRunOracle).events ∧
    Event.upsertPost postLetterA ["gid-a"] userBob.username ∈
      (syncAction (some accAliceStored) 0 igPostsAB userBob storePostsAB
        mixedRunOracle).events ∧
    Event.upsertPost postLetterB ["gid-b"] userBob.username ∈
      (syncAction (some accAliceStored) 0 igPostsAB userBob storePostsAB
        mixedRunOracle).events ∧
    (syncAction (some accAliceStored) 0 igPostsAB userBob storePostsAB
      mixedRunOracle).result = RunResult.success userBob.username userBob.name :=
  partial_failure_excludes_failed_post accAliceStored 0 igPostsAB userBob storePostsAB
    mixedRunOracle postLetterA postLetterB
    { metaobjectId := "rec-a", fileIds := ["gid-a"], handle := "bob-post-a" }
    { metaobjectId := "rec-b", fileIds := ["gid-b"], handle := "bob-post-b" }
    "m-bob-post-b" [] [] [] rfl rfl rfl rfl (by decide) (by decide) (by decide) (by decide)

theorem uploadMediaFile_failure_contained_witness :
    (fileCreateUserErrors (uploadMediaFile failingMediaOracle
        "https://cdn.example/v" "VIDEO" "alice-post_v") ≠ [] →
      extractFileIds (uploadMediaFile failingMediaOracle
        "https://cdn.example/v" "VIDEO" "alice-post_v") = []) ∧
    (∀ msg, uploadAttempt failingMediaOracle
        "https://cdn.example/v" "VIDEO" "alice-post_v" = Except.error msg →
      uploadMediaFile failingMediaOracle
        "https://cdn.example/v" "VIDEO" "alice-post_v" = mkCaughtErrorResponse msg) ∧
    (∀ msg, "VIDEO" = "VIDEO" → uploadVideoBody failingMediaOracle
        "https://cdn.example/v" "alice-post_v" = Except.error msg →
      uploadMediaFile failingMediaOracle
        "https://cdn.example/v" "VIDEO" "alice-post_v" = mkCaughtErrorResponse msg) ∧
    (∀ r, uploadAttempt failingMediaOracle
        "https://cdn.example/v" "VIDEO" "alice-post_v" = Except.ok r →
      uploadMediaFile failingMediaOracle
        "https://cdn.example/v" "VIDEO" "alice-post_v" = r) :=
  uploadMediaFile_failure_contained failingMediaOracle
    "https://cdn.example/v" "VIDEO" "alice-post_v"
    (fun _ _ _ _ h => nomatch h)

theorem empty_feed_short_circuit_witness :
    syncAction (some accAliceStored) 0 igEmptyFeed userAlice storeAliceFull okRunOracle =
      { result := RunResult.successNoPosts "No Instagram posts found to sync" 0,
        events := [Event.fetchMedia, Event.fetchProfile], postObjectIds := [] } ∧
    applyEvents storeAliceFull [Event.fetchMedia, Event.fetchProfile] = storeAliceFull :=
  empty_feed_short_circuit accAliceStored 0 igEmptyFeed userAlice storeAliceFull
    okRunOracle rfl rfl rfl (by decide)

theorem processPost_new_carousel_witness :
    processPost okRunOracle emptyStore "alice" carouselThree =
      (collectUpsertId (upsertPostMetaobject okRunOracle carouselThree
        (carouselThreeChildren.map (fun c => "gid-" ++ c.media_url)) "alice"),
       carouselThreeChildren.map (fun c => Event.uploadMedia c.media_url c.media_type
         ("alice" ++ "-post_" ++ carouselThree.id ++ "_" ++ c.id))
       ++ [Event.upsertPost carouselThree
         (carouselThreeChildren.map (fun c => "gid-" ++ c.media_url)) "alice"]) :=
  processPost_new_carousel okRunOracle emptyStore "alice" carouselThree
    carouselThreeChildren (fun c => "gid-" ++ c.media_url)
    (by decide) rfl rfl (by decide) (by decide)

theorem expired_token_short_circuit_witness :
    syncAction (some { id := "acct-2", username := some "alice", expiresAt := some 1000 })
      2000 igOneNewPost userBob storeAliceFull okRunOracle =
      { result := RunResult.errorTokenExpired
          "Instagram token has expired. Please reconnect your Instagram account." true,
        events := [], postObjectIds := [] } :=
  expired_token_short_circuit
    { id := "acct-2", username := some "alice", expiresAt := some 1000 }
    2000 1000 igOneNewPost userBob storeAliceFull okRunOracle rfl (by decide)

theorem no_list_write_when_zero_upserts_witness :
    (∀ e ∈ (syncAction (some accAliceStored) 0 igOneNewPost userAlice
        storeWithAliceList failingRunOracle).events, isListUpsertEvent e = false) ∧
    ((∀ acc, some accAliceStored = some acc →
        identitySwitch acc.username userAlice.username = false) →
      (applyEvents storeWithAliceList
        (syncAction (some accAliceStored) 0 igOneNewPost userAlice
          storeWithAliceList failingRunOracle).events).listMetaobjects =
        storeWithAliceList.listMetaobjects) :=
  no_list_write_when_zero_upserts (some accAliceStored) 0 igOneNewPost userAlice
    storeWithAliceList failingRunOracle (by decide)

theorem empty_feed_defers_reconciliation_witness :
    (syncAction (some accAliceStored) 0 igEmptyFeed userBob storeAliceFull
      okRunOracle).events = [Event.fetchMedia, Event.fetchProfile] ∧
    (∀ recordId : String,
      Event.deletePostRecord recordId ∉ (syncAction (some accAliceStored) 0 igEmptyFeed
        userBob storeAliceFull okRunOracle).events ∧
      Event.deleteListRecord recordId ∉ (syncAction (some accAliceStored) 0 igEmptyFeed
        userBob storeAliceFull okRunOracle).events) ∧
    (∀ fileIds : List String,
      Event.fileDelete fileIds ∉ (syncAction (some accAliceStored) 0 igEmptyFeed
        userBob storeAliceFull okRunOracle).events) ∧
    (∀ accountId u : String,
      Event.setUsername accountId u ∉ (syncAction (some accAliceStored) 0 igEmptyFeed
        userBob storeAliceFull okRunOracle).events) ∧
    applyEvents storeAliceFull (syncAction (some accAliceStored) 0 igEmptyFeed userBob
      storeAliceFull okRunOracle).events = storeAliceFull :=
  empty_feed_defers_reconciliation accAliceStored 0 igEmptyFeed userBob storeAliceFull
    okRunOracle "alice" rfl (by decide) (by decide) rfl rfl rfl (by decide)
